import Mathlib

/-!
# KubeArmor daemon core (`KubeArmor/core/kubeArmor.go`)

A shallow embedding of the daemon lifecycle code: construction of the daemon
object, the three subsystem initialisation steps, the launch of background
routines, the signal handler and the shutdown path.

The main flow is sequential Go code that talks to collaborators (enforcer,
audit logger, container monitor, orchestration client, the Go runtime).  It is
embedded as a state-passing computation over a `World` that holds the
package-level variables and the trace of observable events.  Everything the
collaborators decide is read from an `Env`.
-/

namespace core

/-! ## Go standard library -/

namespace strings

/-- Whether `p` is an initial segment of `s` (Go `strings.HasPrefix`). -/
def startsWith : List Char → List Char → Bool
  | _, [] => true
  | [], _ :: _ => false
  | c :: s, d :: p => c == d && startsWith s p

/-- Whether `p` occurs in `s` as a contiguous block. -/
def containsChars : List Char → List Char → Bool
  | [], p => startsWith [] p
  | c :: s, p => startsWith (c :: s) p || containsChars s p

/-- Go `strings.Contains(s, substr)`: `substr` is within `s`.  Go compares
bytes; on the code points of well-formed text this is the same test for the
two ASCII needles the file uses. -/
def Contains (s substr : String) : Bool :=
  containsChars s.data substr.data

end strings

namespace syscall

/-- Signals of package `syscall`; `other n` is any signal number not named here. -/
inductive Signal where
  | SIGHUP
  | SIGINT
  | SIGQUIT
  | SIGKILL
  | SIGTERM
  | other (n : Nat)
  deriving DecidableEq, Repr

end syscall

namespace os

/-- Go `os.Interrupt`, which is `syscall.SIGINT`. -/
def Interrupt : syscall.Signal := syscall.Signal.SIGINT

end os

namespace sync

/-- A `sync.Mutex`; the zero value is unlocked. -/
structure Mutex where
  locked : Bool := false
  deriving DecidableEq, Repr

end sync

/-- A `chan os.Signal` created by `GetOSSigChannel`: its buffer size and the
signals handed to `signal.Notify` for it. -/
structure SigChan where
  capacity : Nat
  notify : List syscall.Signal
  deriving DecidableEq, Repr

/-! ## Collaborator packages -/

/-- Element types of package `types` (`tp`).  They are declared outside this
file and nothing here looks inside them, so they are parameters. -/
structure tp where
  Container : Type
  ContainerGroup : Type
  K8sPod : Type
  SecurityPolicy : Type
  PidMap : Type

namespace efc

/-- Handle returned by `efc.NewRuntimeEnforcer(homeDir)`, represented by the
argument it was built from. -/
structure RuntimeEnforcer where
  homeDir : String
  deriving DecidableEq, Repr

end efc

namespace adt

/-- Handle returned by `adt.NewAuditLogger(option, ...)`, represented by the
log option it was built from (the shared maps are passed by reference). -/
structure AuditLogger where
  logOption : String
  deriving DecidableEq, Repr

end adt

namespace mon

/-- Handle returned by `mon.NewContainerMonitor(option, ...)`, represented by
the log option it was built from (the shared maps are passed by reference). -/
structure ContainerMonitor where
  logOption : String
  deriving DecidableEq, Repr

end mon

/-- How a collaborator call without an error result ends. -/
inductive Ret where
  | ok
  | panics
  deriving DecidableEq, Repr

/-- How a collaborator call with an `error` result ends. -/
inductive RetErr where
  | nil
  | err
  | panics
  deriving DecidableEq, Repr

/-- Everything decided outside this file during one run of the daemon. -/
structure Env where
  /-- Result of `filepath.Abs(filepath.Dir(os.Args[0]))`. -/
  Abs : Except String String
  /-- Outcome of `efc.NewRuntimeEnforcer`. -/
  NewRuntimeEnforcer : Ret
  /-- Outcome of `adt.NewAuditLogger`. -/
  NewAuditLogger : Ret
  /-- Outcome of `dm.AuditLogger.InitAuditLogger`. -/
  AuditLoggerInit : RetErr
  /-- Outcome of `mon.NewContainerMonitor`. -/
  NewContainerMonitor : Ret
  /-- Outcome of `dm.ContainerMonitor.InitBPF`. -/
  InitBPF : RetErr
  /-- Result of `K8s.InitK8sClient()`. -/
  InitK8sClient : Bool
  /-- Result of `K8s.GetContainerRuntime()`. -/
  GetContainerRuntime : String
  /-- A termination signal arrives after the three subsystems are initialised
  and before `signal.Notify` has run.  The only call of `signal.Notify` is in
  `GetOSSigChannel`, reached through `GetChan` at the end of the main flow, so
  until then the signal takes its default action and ends the process.  The
  arrival is placed at the last point of that window, on entry to `GetChan`. -/
  signalEarly : Bool
  /-- A registered signal is already queued when the `select` of `GetChan` runs. -/
  signalPending : Bool
  /-- A registered signal is delivered while the main flow waits on the channel. -/
  signalLater : Bool
  /-- Every registered routine reaches `WgDaemon.Done()`, so `Wait` can return. -/
  tasksDone : Bool

/-! ## Events and worlds -/

/-- Functions that the flow calls or launches as goroutines. -/
inductive Fn where
  | NewKubeArmorDaemon
  | DestroyKubeArmorDaemon
  | GetOSSigChannel
  | GetChan
  | InitRuntimeEnforcer
  | CloseRuntimeEnforcer
  | InitAuditLogger
  | MonitorAuditLogs
  | CloseAuditLogger
  | InitContainerMonitor
  | MonitorSystemEvents
  | CloseContainerMonitor
  | KubeArmor
  | MonitorContainerdEvents
  | MonitorDockerEvents
  | WatchK8sPods
  | WatchSecurityPolicies
  | AuditLoggerMonitorAuditLogs
  | TraceSyscall
  | TraceSkb
  | UpdateSystemLogs
  deriving DecidableEq, Repr

/-- Calls into collaborator packages, with the arguments this file chooses. -/
inductive Ext where
  | NewRuntimeEnforcer (homeDir : String)
  | NewAuditLogger (auditLogOption : String)
  | AuditLoggerInit (homeDir : String)
  | NewContainerMonitor (systemLogOption : String)
  | InitBPF (homeDir : String)
  | DestroyRuntimeEnforcer
  | DestroyAuditLogger
  | DestroyContainerMonitor
  | InitK8sClient
  | GetContainerRuntime
  deriving DecidableEq, Repr

/-- Log functions of package `log` (`kg`). -/
inductive LogFn where
  | Print
  | Printf
  | Err
  | PrintfNotInsert
  deriving DecidableEq, Repr

/-- The two `close(StopChan)` statements of the file. -/
inductive Site where
  | inGetChan
  | inKubeArmor
  deriving DecidableEq, Repr

/-- Observable steps of a run, in program order. -/
inductive Event where
  | call (f : Fn)
  | go (f : Fn)
  | ext (c : Ext)
  | log (fn : LogFn) (msg : String)
  | sleep (seconds : Nat)
  | notify (signals : List syscall.Signal)
  | recv
  | closeStopChan (site : Site)
  | wgAdd (delta : Int)
  | wgWait
  | wgWaitReturn
  | exit (code : Int)
  deriving DecidableEq, Repr

/-- Package-level variables of the file together with the trace so far. -/
structure World (T : tp) where
  /-- Whether `StopChan` has been closed. -/
  StopChanClosed : Bool
  /-- Counter of the wait group `WgDaemon`. -/
  WgDaemon : Int
  ActivePidMap : List (String × T.PidMap)
  ActivePidMapLock : sync.Mutex
  trace : List Event

/-- Ways a flow ends other than by returning: the process exits, the flow
panics, it blocks for ever, or the process is ended by the default action of a
signal that no handler catches. -/
inductive Stop where
  | exited (code : Int)
  | panicked (msg : String)
  | blocked
  | killed
  deriving DecidableEq, Repr

/-- A piece of sequential Go code: it transforms the world and either returns a
value or stops the flow. -/
def Flow (T : tp) (α : Type) : Type := World T → Except Stop α × World T

namespace Flow

/-- Return a value without touching the world. -/
@[simp]
def ret {T : tp} {α : Type} (a : α) : Flow T α := fun w => (Except.ok a, w)

/-- Sequencing: run `m`, then `f` on its value unless `m` stopped. -/
@[simp]
def andThen {T : tp} {α β : Type} (m : Flow T α) (f : α → Flow T β) : Flow T β := fun w =>
  match m w with
  | (Except.ok a, w1) => f a w1
  | (Except.error s, w1) => (Except.error s, w1)

end Flow

instance (T : tp) : Monad (Flow T) where
  pure := Flow.ret
  bind := Flow.andThen

/-- Append one event to the trace. -/
@[simp]
def emit {T : tp} (e : Event) : Flow T Unit := fun w =>
  (Except.ok (), { w with trace := w.trace ++ [e] })

/-- End the flow. -/
@[simp]
def halt {T : tp} {α : Type} (s : Stop) : Flow T α := fun w => (Except.error s, w)

/-! ## Primitive statements -/

namespace kg

/-- Go `kg.Print(msg)`. -/
@[simp]
def Print {T : tp} (msg : String) : Flow T Unit := emit (Event.log LogFn.Print msg)

/-- Go `kg.Printf(format, arg)` for the one format this file uses, `prefix%s`. -/
@[simp]
def Printf {T : tp} (before arg : String) : Flow T Unit :=
  emit (Event.log LogFn.Printf (before ++ arg))

/-- Go `kg.Err(msg)`. -/
@[simp]
def Err {T : tp} (msg : String) : Flow T Unit := emit (Event.log LogFn.Err msg)

/-- Go `kg.PrintfNotInsert(msg)`. -/
@[simp]
def PrintfNotInsert {T : tp} (msg : String) : Flow T Unit :=
  emit (Event.log LogFn.PrintfNotInsert msg)

/-- Modelled from the spec: `kg.HandleErrRet` belongs to package `log`, which is
not among the sources.  The spec has every initialisation step return success
or failure, so the deferred handler is taken to recover a panic raised inside
the step; the step then returns the zero value `false` of its unnamed `bool`
result, and otherwise the value of its `return` statement. -/
@[simp]
def HandleErrRet (recovered : Bool) (ret : Bool) : Bool :=
  if recovered then false else ret

/-- Modelled from the spec: `kg.HandleErr` belongs to package `log`, which is
not among the sources.  The spec keeps a failure of a background routine local
to that routine, so the deferred handler is taken to recover a panic raised in
the routine that defers it. -/
@[simp]
def HandleErr {T : tp} (body : Flow T Unit) : Flow T Unit := fun w =>
  match body w with
  | (Except.error (Stop.panicked _), w1) => (Except.ok (), w1)
  | r => r

end kg

namespace time

/-- Go `time.Sleep(time.Second * n)`. -/
@[simp]
def Sleep {T : tp} (seconds : Nat) : Flow T Unit := emit (Event.sleep seconds)

end time

namespace os

/-- Go `os.Exit(code)`: the process ends here. -/
@[simp]
def Exit {T : tp} {α : Type} (code : Int) : Flow T α := fun w =>
  (Except.error (Stop.exited code), { w with trace := w.trace ++ [Event.exit code] })

end os

/-- Go `close(StopChan)` at one of the two places of the file.  Closing a
channel that is already closed panics. -/
@[simp]
def closeStopChan {T : tp} (site : Site) : Flow T Unit := fun w =>
  if w.StopChanClosed then
    (Except.error (Stop.panicked "close of closed channel"), w)
  else
    (Except.ok (), { w with StopChanClosed := true, trace := w.trace ++ [Event.closeStopChan site] })

/-- Go `<-sigChan`: returns once a registered signal has been delivered. -/
@[simp]
def recvSignal {T : tp} (delivered : Bool) : Flow T Unit :=
  if delivered then emit Event.recv else halt Stop.blocked

/-- Go `go f()`: the routine is launched and the caller goes on at once. -/
@[simp]
def go {T : tp} (f : Fn) : Flow T Unit := emit (Event.go f)

namespace WgDaemon

/-- Go `WgDaemon.Add(delta)`; a counter below zero panics. -/
@[simp]
def Add {T : tp} (delta : Int) : Flow T Unit := fun w =>
  if w.WgDaemon + delta < 0 then
    (Except.error (Stop.panicked "sync: negative WaitGroup counter"),
      { w with WgDaemon := w.WgDaemon + delta })
  else
    (Except.ok (), { w with WgDaemon := w.WgDaemon + delta, trace := w.trace ++ [Event.wgAdd delta] })

/-- Go `WgDaemon.Done()`, which is `Add(-1)`. -/
@[simp]
def Done {T : tp} : Flow T Unit := Add (-1)

/-- Go `WgDaemon.Wait()`: the call returns when the counter is zero, which
takes every registered routine to have called `Done`; otherwise it blocks. -/
@[simp]
def Wait {T : tp} (env : Env) : Flow T Unit := fun w =>
  if w.WgDaemon = 0 then
    (Except.ok (), { w with trace := w.trace ++ [Event.wgWait, Event.wgWaitReturn] })
  else if env.tasksDone then
    (Except.ok (), { w with WgDaemon := 0, trace := w.trace ++ [Event.wgWait, Event.wgWaitReturn] })
  else
    (Except.error Stop.blocked, { w with trace := w.trace ++ [Event.wgWait] })

end WgDaemon

namespace K8s

/-- Go `K8s.InitK8sClient()`. -/
@[simp]
def InitK8sClient {T : tp} (env : Env) : Flow T Bool := fun w =>
  (Except.ok env.InitK8sClient, { w with trace := w.trace ++ [Event.ext Ext.InitK8sClient] })

/-- Go `K8s.GetContainerRuntime()`. -/
@[simp]
def GetContainerRuntime {T : tp} (env : Env) : Flow T String := fun w =>
  (Except.ok env.GetContainerRuntime,
    { w with trace := w.trace ++ [Event.ext Ext.GetContainerRuntime] })

end K8s

/-! ## KubeArmor daemon -/

/-- Go `init()`: the package-level variables before `KubeArmor` runs. -/
@[simp]
def init (T : tp) : World T :=
  { StopChanClosed := false
    WgDaemon := 0
    ActivePidMap := []
    ActivePidMapLock := {}
    trace := [] }

/-- Go `KubeArmorDaemon`. -/
structure KubeArmorDaemon (T : tp) where
  HomeDir : String
  Containers : List (String × T.Container)
  ContainersLock : sync.Mutex
  ContainerGroups : List T.ContainerGroup
  ContainerGroupsLock : sync.Mutex
  K8sPods : List T.K8sPod
  K8sPodsLock : sync.Mutex
  SecurityPolicies : List T.SecurityPolicy
  SecurityPoliciesLock : sync.Mutex
  RuntimeEnforcer : Option efc.RuntimeEnforcer
  AuditLogger : Option adt.AuditLogger
  ContainerMonitor : Option mon.ContainerMonitor
  AuditLogOption : String
  SystemLogOption : String

/-- Go `NewKubeArmorDaemon(auditLogOption, systemLogOption)`; it panics when
the directory of the executable cannot be resolved. -/
@[simp]
def NewKubeArmorDaemon {T : tp} (env : Env) (auditLogOption systemLogOption : String) :
    Flow T (KubeArmorDaemon T) := do
  emit (Event.call Fn.NewKubeArmorDaemon)
  match env.Abs with
  | Except.error err => halt (Stop.panicked err)
  | Except.ok dir =>
    return { HomeDir := dir
             Containers := []
             ContainersLock := {}
             ContainerGroups := []
             ContainerGroupsLock := {}
             K8sPods := []
             K8sPodsLock := {}
             SecurityPolicies := []
             SecurityPoliciesLock := {}
             RuntimeEnforcer := none
             AuditLogger := none
             ContainerMonitor := none
             AuditLogOption := auditLogOption
             SystemLogOption := systemLogOption }

/-- Go `dm.CloseRuntimeEnforcer()`. -/
@[simp]
def CloseRuntimeEnforcer {T : tp} (_dm : KubeArmorDaemon T) : Flow T Unit := do
  emit (Event.call Fn.CloseRuntimeEnforcer)
  emit (Event.ext Ext.DestroyRuntimeEnforcer)

/-- Go `dm.CloseAuditLogger()`. -/
@[simp]
def CloseAuditLogger {T : tp} (_dm : KubeArmorDaemon T) : Flow T Unit := do
  emit (Event.call Fn.CloseAuditLogger)
  emit (Event.ext Ext.DestroyAuditLogger)

/-- Go `dm.CloseContainerMonitor()`. -/
@[simp]
def CloseContainerMonitor {T : tp} (_dm : KubeArmorDaemon T) : Flow T Unit := do
  emit (Event.call Fn.CloseContainerMonitor)
  emit (Event.ext Ext.DestroyContainerMonitor)

/-- Go `dm.DestroyKubeArmorDaemon()`. -/
@[simp]
def DestroyKubeArmorDaemon {T : tp} (env : Env) (dm : KubeArmorDaemon T) : Flow T Unit := do
  emit (Event.call Fn.DestroyKubeArmorDaemon)
  CloseRuntimeEnforcer dm
  kg.PrintfNotInsert "Closed the runtime enforcer"
  CloseAuditLogger dm
  kg.PrintfNotInsert "Closed the audit logger"
  CloseContainerMonitor dm
  kg.PrintfNotInsert "Closed the container monitor"
  kg.PrintfNotInsert "Waiting for routine terminations"
  WgDaemon.Wait env
  kg.PrintfNotInsert "Terminated the KubeArmor"

/-- Go `GetOSSigChannel()`. -/
@[simp]
def GetOSSigChannel {T : tp} : Flow T SigChan := do
  emit (Event.call Fn.GetOSSigChannel)
  let c : SigChan :=
    { capacity := 1
      notify := [syscall.Signal.SIGKILL, syscall.Signal.SIGHUP, syscall.Signal.SIGINT,
                 syscall.Signal.SIGTERM, syscall.Signal.SIGQUIT, os.Interrupt] }
  emit (Event.notify c.notify)
  return c

/-- Go `dm.GetChan()`: the `select` takes the receive branch when a signal is
already queued, and the `default` branch otherwise.  A termination signal that
arrives before the channel is registered ends the process. -/
@[simp]
def GetChan {T : tp} (env : Env) (dm : KubeArmorDaemon T) : Flow T SigChan := do
  emit (Event.call Fn.GetChan)
  -- no handler is registered before `GetOSSigChannel` has called `signal.Notify`
  if env.signalEarly then
    halt Stop.killed
  let sigChan ← GetOSSigChannel
  if env.signalPending then
    emit Event.recv
    kg.PrintfNotInsert "Got a signal to terminate the KubeArmor"
    closeStopChan Site.inGetChan
    DestroyKubeArmorDaemon env dm
    os.Exit 0
  else
    time.Sleep 1
  return sigChan

/-- Go `dm.InitRuntimeEnforcer()`. -/
@[simp]
def InitRuntimeEnforcer {T : tp} (env : Env) (dm : KubeArmorDaemon T) :
    Flow T (Bool × KubeArmorDaemon T) := do
  emit (Event.call Fn.InitRuntimeEnforcer)
  let ret := true
  -- defer kg.HandleErrRet(&ret)
  emit (Event.ext (Ext.NewRuntimeEnforcer dm.HomeDir))
  match env.NewRuntimeEnforcer with
  | Ret.panics => return (kg.HandleErrRet true ret, dm)
  | Ret.ok =>
    let dm := { dm with RuntimeEnforcer := some { homeDir := dm.HomeDir } }
    kg.Print "Started to protect containers"
    return (kg.HandleErrRet false ret, dm)

/-- Go `dm.InitAuditLogger()`. -/
@[simp]
def InitAuditLogger {T : tp} (env : Env) (dm : KubeArmorDaemon T) :
    Flow T (Bool × KubeArmorDaemon T) := do
  emit (Event.call Fn.InitAuditLogger)
  let ret := true
  -- defer kg.HandleErrRet(&ret)
  emit (Event.ext (Ext.NewAuditLogger dm.AuditLogOption))
  match env.NewAuditLogger with
  | Ret.panics => return (kg.HandleErrRet true ret, dm)
  | Ret.ok =>
    let dm := { dm with AuditLogger := some { logOption := dm.AuditLogOption } }
    emit (Event.ext (Ext.AuditLoggerInit dm.HomeDir))
    match env.AuditLoggerInit with
    | RetErr.panics => return (kg.HandleErrRet true ret, dm)
    | RetErr.err => return (kg.HandleErrRet false false, dm)
    | RetErr.nil =>
      kg.Print "Started to monitor audit logs"
      return (kg.HandleErrRet false ret, dm)

/-- Go `dm.MonitorAuditLogs()`, the body of the routine: the tailing loop is
launched with `go`, then the function returns and its deferred calls run,
`WgDaemon.Done()` first and `kg.HandleErr()` last. -/
@[simp]
def MonitorAuditLogs {T : tp} : Flow T Unit :=
  kg.HandleErr (do
    go Fn.AuditLoggerMonitorAuditLogs
    WgDaemon.Done)

/-- Go `dm.InitContainerMonitor()`. -/
@[simp]
def InitContainerMonitor {T : tp} (env : Env) (dm : KubeArmorDaemon T) :
    Flow T (Bool × KubeArmorDaemon T) := do
  emit (Event.call Fn.InitContainerMonitor)
  let ret := true
  -- defer kg.HandleErrRet(&ret)
  emit (Event.ext (Ext.NewContainerMonitor dm.SystemLogOption))
  match env.NewContainerMonitor with
  | Ret.panics => return (kg.HandleErrRet true ret, dm)
  | Ret.ok =>
    let dm := { dm with ContainerMonitor := some { logOption := dm.SystemLogOption } }
    emit (Event.ext (Ext.InitBPF dm.HomeDir))
    match env.InitBPF with
    | RetErr.panics => return (kg.HandleErrRet true ret, dm)
    | RetErr.err => return (kg.HandleErrRet false false, dm)
    | RetErr.nil =>
      kg.Print "Started to monitor system events"
      return (kg.HandleErrRet false ret, dm)

/-- Go `dm.MonitorSystemEvents()`, the body of the routine: the three loops are
launched with `go`, then the function returns and its deferred calls run,
`WgDaemon.Done()` first and `kg.HandleErr()` last. -/
@[simp]
def MonitorSystemEvents {T : tp} : Flow T Unit :=
  kg.HandleErr (do
    go Fn.TraceSyscall
    go Fn.TraceSkb
    go Fn.UpdateSystemLogs
    WgDaemon.Done)

/-- Go `KubeArmor(auditLogOption, systemLogOption)`, the main flow.  A `go`
statement only launches the routine; the bodies of the routines run
concurrently and are not part of this flow. -/
@[simp]
def KubeArmor {T : tp} (env : Env) (auditLogOption systemLogOption : String) : Flow T Unit := do
  let dm ← NewKubeArmorDaemon env auditLogOption systemLogOption
  kg.Print "Started KubeArmor"
  let (ok, dm) ← InitRuntimeEnforcer env dm
  if !ok then
    kg.Err "Failed to intialize the runtime enforcer"
    return
  let (ok, dm) ← InitAuditLogger env dm
  if !ok then
    kg.Err "Failed to intialize the audit logger"
    return
  let (ok, dm) ← InitContainerMonitor env dm
  if !ok then
    kg.Err "Failed to initialize the container monitor"
    return
  go Fn.MonitorAuditLogs
  WgDaemon.Add 1
  go Fn.MonitorSystemEvents
  WgDaemon.Add 1
  time.Sleep 1
  if ← K8s.InitK8sClient env then
    let cr ← K8s.GetContainerRuntime env
    kg.Printf "Container Runtime: " cr
    if strings.Contains cr "containerd" then
      go Fn.MonitorContainerdEvents
      WgDaemon.Add 1
    else if strings.Contains cr "docker" then
      go Fn.MonitorDockerEvents
      WgDaemon.Add 1
    go Fn.WatchK8sPods
    go Fn.WatchSecurityPolicies
  let _sigChan ← GetChan env dm
  recvSignal env.signalLater
  kg.PrintfNotInsert "Got a signal to terminate the KubeArmor"
  closeStopChan Site.inKubeArmor
  DestroyKubeArmorDaemon env dm

/-- Modelled from the spec: the entry point of the process (package `main`)
is not among the sources.  The spec ends the shutdown sequence with the process
exiting with a success status code; the entry point is taken to call
`KubeArmor` and return, and a Go process whose `main` returns exits with
status 0. -/
def entryPoint {T : tp} (env : Env) (auditLogOption systemLogOption : String) : Flow T Unit := do
  KubeArmor env auditLogOption systemLogOption
  os.Exit 0

/-- Modelled from the spec: the runtime watchers `MonitorContainerdEvents` and
`MonitorDockerEvents` are defined in another file of the package, not among the
sources.  The spec has every watcher leave its loop when the cancellation
signal fires and every tracked task mark itself done on exit;
`specifiedRoutines env` says that the routines registered with the tracker do
so in `env`, so that the counter of the tracker comes back to zero. -/
def specifiedRoutines (env : Env) : Bool := env.tasksDone

/-! ## Reading a run -/

/-- One run of the process from the initial state of the package. -/
def process (T : tp) (env : Env) (auditLogOption systemLogOption : String) :
    Except Stop Unit × World T :=
  entryPoint env auditLogOption systemLogOption (init T)

/-- Element types instantiated trivially, to run the flow on concrete inputs. -/
def tpUnit : tp :=
  { Container := Unit, ContainerGroup := Unit, K8sPod := Unit, SecurityPolicy := Unit,
    PidMap := Unit }

/-- One run of the main flow from the initial state of the package. -/
def run (T : tp) (env : Env) (auditLogOption systemLogOption : String) :
    Except Stop Unit × World T :=
  KubeArmor env auditLogOption systemLogOption (init T)

/-- Functions entered by a call, in order. -/
def calls : List Event → List Fn
  | [] => []
  | Event.call f :: tr => f :: calls tr
  | _ :: tr => calls tr

/-- Routines launched with `go`, in order. -/
def launched : List Event → List Fn
  | [] => []
  | Event.go f :: tr => f :: launched tr
  | _ :: tr => launched tr

/-- The `close(StopChan)` statements executed, in order. -/
def closes : List Event → List Site
  | [] => []
  | Event.closeStopChan s :: tr => s :: closes tr
  | _ :: tr => closes tr

/-- The deltas of the `WgDaemon.Add` calls executed, in order. -/
def registrations : List Event → List Int
  | [] => []
  | Event.wgAdd d :: tr => d :: registrations tr
  | _ :: tr => registrations tr

/-- The status codes of the `os.Exit` calls executed. -/
def exits : List Event → List Int
  | [] => []
  | Event.exit c :: tr => c :: exits tr
  | _ :: tr => exits tr

/-- The three initialisation steps. -/
def Fn.isInit : Fn → Bool
  | Fn.InitRuntimeEnforcer => true
  | Fn.InitAuditLogger => true
  | Fn.InitContainerMonitor => true
  | _ => false

/-- The initialisation steps entered, in order. -/
def initCalls (tr : List Event) : List Fn := (calls tr).filter Fn.isInit

/-- Launches and tracker registrations. -/
def Event.isLaunchStep : Event → Bool
  | Event.go _ => true
  | Event.wgAdd _ => true
  | _ => false

/-- The launches and tracker registrations of a trace, in order. -/
def launchSteps (tr : List Event) : List Event := tr.filter Event.isLaunchStep

/-- Steps of the shutdown sequence: signal receipt, cancellation, the three
closes, the tracker wait and the process exit. -/
def Event.isShutdownStep : Event → Bool
  | Event.recv => true
  | Event.closeStopChan _ => true
  | Event.call Fn.CloseRuntimeEnforcer => true
  | Event.call Fn.CloseAuditLogger => true
  | Event.call Fn.CloseContainerMonitor => true
  | Event.wgWait => true
  | Event.wgWaitReturn => true
  | Event.exit _ => true
  | _ => false

/-- The shutdown steps of a trace, in order. -/
def shutdownSteps (tr : List Event) : List Event := tr.filter Event.isShutdownStep

/-- What `dm.InitRuntimeEnforcer()` returns in this environment. -/
def Env.enforcerOk (env : Env) : Bool :=
  env.NewRuntimeEnforcer == Ret.ok

/-- What `dm.InitAuditLogger()` returns in this environment. -/
def Env.auditOk (env : Env) : Bool :=
  env.NewAuditLogger == Ret.ok && env.AuditLoggerInit == RetErr.nil

/-- What `dm.InitContainerMonitor()` returns in this environment. -/
def Env.monitorOk (env : Env) : Bool :=
  env.NewContainerMonitor == Ret.ok && env.InitBPF == RetErr.nil

/-- An environment in which everything succeeds, the client connects, the
runtime is docker and a signal arrives while the daemon is running. -/
def envDocker : Env :=
  { Abs := Except.ok "/opt/kubearmor"
    NewRuntimeEnforcer := Ret.ok
    NewAuditLogger := Ret.ok
    AuditLoggerInit := RetErr.nil
    NewContainerMonitor := Ret.ok
    InitBPF := RetErr.nil
    InitK8sClient := true
    GetContainerRuntime := "docker://19.3.8"
    signalEarly := false
    signalPending := false
    signalLater := true
    tasksDone := true }

/-- As `envDocker`, with a runtime identity that names both runtimes. -/
def envBoth : Env := { envDocker with GetContainerRuntime := "docker-containerd" }

/-- As `envDocker`, with an enforcer whose construction panics. -/
def envEnforcerFails : Env := { envDocker with NewRuntimeEnforcer := Ret.panics }

/-- As `envDocker`, with an orchestration client that does not connect. -/
def envNoClient : Env := { envDocker with InitK8sClient := false }

/-- As `envDocker`, with a working directory that cannot be resolved. -/
def envNoHome : Env :=
  { envDocker with Abs := Except.error "getwd: no such file or directory" }

/-- As `envDocker`, with a termination signal that arrives before any handler
is registered. -/
def envEarly : Env := { envDocker with signalEarly := true }

/-- As `envDocker`, with the signal already queued when `GetChan` polls. -/
def envPending : Env := { envDocker with signalPending := true }

/-- As `envDocker`, where no routine makes any further progress. -/
def envStuck : Env := { envDocker with tasksDone := false }

/-- The two routine bodies of this file followed by the tracker wait of the
shutdown path: one schedule of the routines registered by the main flow. -/
def routinesThenWait {T : tp} (env : Env) : Flow T Unit := do
  MonitorAuditLogs
  MonitorSystemEvents
  WgDaemon.Wait env

/-! ## The events of a run, written out

The lists below spell out what the flow emits, segment by segment.  They are
only used to state `run_started` and the lemmas on failed startups, which
prove that `KubeArmor` emits exactly these events. -/

/-- Events of a startup in which all three initialisation steps succeed, up
to the pause before the orchestration client is contacted. -/
def startupEvents (dir a s : String) : List Event :=
  [ Event.call Fn.NewKubeArmorDaemon,
    Event.log LogFn.Print "Started KubeArmor",
    Event.call Fn.InitRuntimeEnforcer,
    Event.ext (Ext.NewRuntimeEnforcer dir),
    Event.log LogFn.Print "Started to protect containers",
    Event.call Fn.InitAuditLogger,
    Event.ext (Ext.NewAuditLogger a),
    Event.ext (Ext.AuditLoggerInit dir),
    Event.log LogFn.Print "Started to monitor audit logs",
    Event.call Fn.InitContainerMonitor,
    Event.ext (Ext.NewContainerMonitor s),
    Event.ext (Ext.InitBPF dir),
    Event.log LogFn.Print "Started to monitor system events",
    Event.go Fn.MonitorAuditLogs,
    Event.wgAdd 1,
    Event.go Fn.MonitorSystemEvents,
    Event.wgAdd 1,
    Event.sleep 1 ]

/-- Events of the block guarded by `K8s.InitK8sClient()`. -/
def watcherEvents (k : Bool) (cr : String) : List Event :=
  Event.ext Ext.InitK8sClient ::
    (if k then
      [Event.ext Ext.GetContainerRuntime, Event.log LogFn.Printf ("Container Runtime: " ++ cr)]
        ++ (if strings.Contains cr "containerd" then
              [Event.go Fn.MonitorContainerdEvents, Event.wgAdd 1]
            else if strings.Contains cr "docker" then
              [Event.go Fn.MonitorDockerEvents, Event.wgAdd 1]
            else [])
        ++ [Event.go Fn.WatchK8sPods, Event.go Fn.WatchSecurityPolicies]
     else [])

/-- Events of `DestroyKubeArmorDaemon` when routines are registered; `td` says
whether the tracker wait returns. -/
def destroyEvents (td : Bool) : List Event :=
  [ Event.call Fn.DestroyKubeArmorDaemon,
    Event.call Fn.CloseRuntimeEnforcer,
    Event.ext Ext.DestroyRuntimeEnforcer,
    Event.log LogFn.PrintfNotInsert "Closed the runtime enforcer",
    Event.call Fn.CloseAuditLogger,
    Event.ext Ext.DestroyAuditLogger,
    Event.log LogFn.PrintfNotInsert "Closed the audit logger",
    Event.call Fn.CloseContainerMonitor,
    Event.ext Ext.DestroyContainerMonitor,
    Event.log LogFn.PrintfNotInsert "Closed the container monitor",
    Event.log LogFn.PrintfNotInsert "Waiting for routine terminations",
    Event.wgWait ]
    ++ (if td then
          [Event.wgWaitReturn, Event.log LogFn.PrintfNotInsert "Terminated the KubeArmor"]
        else [])

/-- Events from the registration of the signal channel to the end of the run. -/
def handledEvents (sp sl td : Bool) : List Event :=
  [ Event.call Fn.GetOSSigChannel,
    Event.notify [syscall.Signal.SIGKILL, syscall.Signal.SIGHUP, syscall.Signal.SIGINT,
      syscall.Signal.SIGTERM, syscall.Signal.SIGQUIT, syscall.Signal.SIGINT] ]
    ++ (if sp then
          [ Event.recv,
            Event.log LogFn.PrintfNotInsert "Got a signal to terminate the KubeArmor",
            Event.closeStopChan Site.inGetChan ]
            ++ destroyEvents td ++ (if td then [Event.exit 0] else [])
        else
          Event.sleep 1 ::
            (if sl then
              [ Event.recv,
                Event.log LogFn.PrintfNotInsert "Got a signal to terminate the KubeArmor",
                Event.closeStopChan Site.inKubeArmor ]
                ++ destroyEvents td
             else []))

/-- Events from the call of `GetChan` to the end of the run; `se` says whether
a termination signal arrives before the channel is registered. -/
def signalEvents (se sp sl td : Bool) : List Event :=
  Event.call Fn.GetChan :: (if se then [] else handledEvents sp sl td)

/-- How a run with a successful startup ends. -/
def signalOutcome (se sp sl td : Bool) : Except Stop Unit :=
  if se then Except.error Stop.killed
  else if sp then (if td then Except.error (Stop.exited 0) else Except.error Stop.blocked)
  else if sl then (if td then Except.ok () else Except.error Stop.blocked)
  else Except.error Stop.blocked

/-! ## Helper lemmas -/

@[simp]
theorem bind_eq_andThen {T : tp} {α β : Type} (m : Flow T α) (f : α → Flow T β) :
    (m >>= f) = Flow.andThen m f := rfl

@[simp]
theorem pure_eq_ret {T : tp} {α : Type} (a : α) : (pure a : Flow T α) = Flow.ret a := rfl

/-- The test `startsWith` decides the initial-segment relation. -/
theorem startsWith_iff (s p : List Char) : strings.startsWith s p = true ↔ p <+: s := by
  induction p generalizing s with
  | nil => simp [strings.startsWith]
  | cons d p ih =>
    cases s with
    | nil => simp [strings.startsWith]
    | cons c s =>
      simp only [strings.startsWith, Bool.and_eq_true, beq_iff_eq, ih, List.cons_prefix_cons]
      constructor
      · rintro ⟨h1, h2⟩
        exact ⟨h1.symm, h2⟩
      · rintro ⟨h1, h2⟩
        exact ⟨h1.symm, h2⟩

/-- The test `containsChars` decides the contiguous-block relation. -/
theorem containsChars_iff (s p : List Char) : strings.containsChars s p = true ↔ p <:+: s := by
  induction s with
  | nil =>
    cases p with
    | nil => simp [strings.containsChars, strings.startsWith]
    | cons d p => simp [strings.containsChars, strings.startsWith]
  | cons c s ih =>
    rw [strings.containsChars, Bool.or_eq_true, startsWith_iff, ih, List.infix_cons_iff]

/-- The test `strings.Contains` holds exactly when `substr` occurs in `s`. -/
theorem Contains_iff (s substr : String) :
    strings.Contains s substr = true ↔ substr.data <:+: s.data := by
  simp [strings.Contains, containsChars_iff]

theorem calls_append (xs ys : List Event) : calls (xs ++ ys) = calls xs ++ calls ys := by
  induction xs with
  | nil => rfl
  | cons x xs ih => cases x <;> simp [calls, ih]

theorem launched_append (xs ys : List Event) :
    launched (xs ++ ys) = launched xs ++ launched ys := by
  induction xs with
  | nil => rfl
  | cons x xs ih => cases x <;> simp [launched, ih]

theorem closes_append (xs ys : List Event) : closes (xs ++ ys) = closes xs ++ closes ys := by
  induction xs with
  | nil => rfl
  | cons x xs ih => cases x <;> simp [closes, ih]

theorem shutdownSteps_append (xs ys : List Event) :
    shutdownSteps (xs ++ ys) = shutdownSteps xs ++ shutdownSteps ys := by
  simp [shutdownSteps]

theorem calls_startupEvents (dir a s : String) :
    calls (startupEvents dir a s) =
      [Fn.NewKubeArmorDaemon, Fn.InitRuntimeEnforcer, Fn.InitAuditLogger,
        Fn.InitContainerMonitor] := by
  simp [startupEvents, calls]

theorem calls_watcherEvents (k : Bool) (cr : String) : calls (watcherEvents k cr) = [] := by
  cases k <;> by_cases hc : strings.Contains cr "containerd" = true <;>
    by_cases hd : strings.Contains cr "docker" = true <;>
    simp [watcherEvents, calls, hc, hd]

theorem calls_signalEvents (se sp sl td : Bool) :
    calls (signalEvents se sp sl td) =
      Fn.GetChan ::
        (if se then []
         else Fn.GetOSSigChannel ::
          (if sp || sl then
            [Fn.DestroyKubeArmorDaemon, Fn.CloseRuntimeEnforcer, Fn.CloseAuditLogger,
              Fn.CloseContainerMonitor]
           else [])) := by
  cases se <;> cases sp <;> cases sl <;> cases td <;>
    simp [signalEvents, handledEvents, destroyEvents, calls]

theorem launched_startupEvents (dir a s : String) :
    launched (startupEvents dir a s) = [Fn.MonitorAuditLogs, Fn.MonitorSystemEvents] := by
  simp [startupEvents, launched]

theorem launched_watcherEvents (k : Bool) (cr : String) :
    launched (watcherEvents k cr) =
      (if k then
        (if strings.Contains cr "containerd" then [Fn.MonitorContainerdEvents]
         else if strings.Contains cr "docker" then [Fn.MonitorDockerEvents]
         else []) ++ [Fn.WatchK8sPods, Fn.WatchSecurityPolicies]
       else []) := by
  cases k <;> by_cases hc : strings.Contains cr "containerd" = true <;>
    by_cases hd : strings.Contains cr "docker" = true <;>
    simp [watcherEvents, launched, hc, hd]

theorem launched_signalEvents (se sp sl td : Bool) :
    launched (signalEvents se sp sl td) = [] := by
  cases se <;> cases sp <;> cases sl <;> cases td <;>
    simp [signalEvents, handledEvents, destroyEvents, launched]

theorem closes_startupEvents (dir a s : String) : closes (startupEvents dir a s) = [] := by
  simp [startupEvents, closes]

theorem closes_watcherEvents (k : Bool) (cr : String) : closes (watcherEvents k cr) = [] := by
  cases k <;> by_cases hc : strings.Contains cr "containerd" = true <;>
    by_cases hd : strings.Contains cr "docker" = true <;>
    simp [watcherEvents, closes, hc, hd]

theorem closes_signalEvents (se sp sl td : Bool) :
    closes (signalEvents se sp sl td) =
      (if se then []
       else if sp then [Site.inGetChan] else if sl then [Site.inKubeArmor] else []) := by
  cases se <;> cases sp <;> cases sl <;> cases td <;>
    simp [signalEvents, handledEvents, destroyEvents, closes]

theorem shutdownSteps_startupEvents (dir a s : String) :
    shutdownSteps (startupEvents dir a s) = [] := by
  simp [startupEvents, shutdownSteps, Event.isShutdownStep]

theorem shutdownSteps_watcherEvents (k : Bool) (cr : String) :
    shutdownSteps (watcherEvents k cr) = [] := by
  cases k <;> by_cases hc : strings.Contains cr "containerd" = true <;>
    by_cases hd : strings.Contains cr "docker" = true <;>
    simp [watcherEvents, shutdownSteps, Event.isShutdownStep, hc, hd]

theorem shutdownSteps_signalEvents (se sp sl td : Bool) :
    shutdownSteps (signalEvents se sp sl td) =
      (if !se && (sp || sl) then
        [ Event.recv,
          Event.closeStopChan (if sp then Site.inGetChan else Site.inKubeArmor),
          Event.call Fn.CloseRuntimeEnforcer,
          Event.call Fn.CloseAuditLogger,
          Event.call Fn.CloseContainerMonitor,
          Event.wgWait ]
          ++ (if td then Event.wgWaitReturn :: (if sp then [Event.exit 0] else []) else [])
       else []) := by
  cases se <;> cases sp <;> cases sl <;> cases td <;>
    simp [signalEvents, handledEvents, destroyEvents, shutdownSteps, Event.isShutdownStep]

/-- The return value of `dm.InitRuntimeEnforcer()` is `env.enforcerOk`. -/
theorem InitRuntimeEnforcer_result {T : tp} (env : Env) (dm : KubeArmorDaemon T) (w : World T) :
    ∃ dm1 w1, InitRuntimeEnforcer env dm w = (Except.ok (env.enforcerOk, dm1), w1) := by
  obtain ⟨abs, e, a1, a2, m1, m2, k, cr, se, sp, sl, td⟩ := env
  cases e <;> simp [Env.enforcerOk]

/-- The return value of `dm.InitAuditLogger()` is `env.auditOk`. -/
theorem InitAuditLogger_result {T : tp} (env : Env) (dm : KubeArmorDaemon T) (w : World T) :
    ∃ dm1 w1, InitAuditLogger env dm w = (Except.ok (env.auditOk, dm1), w1) := by
  obtain ⟨abs, e, a1, a2, m1, m2, k, cr, se, sp, sl, td⟩ := env
  cases a1 <;> cases a2 <;> simp [Env.auditOk]

/-- The return value of `dm.InitContainerMonitor()` is `env.monitorOk`. -/
theorem InitContainerMonitor_result {T : tp} (env : Env) (dm : KubeArmorDaemon T) (w : World T) :
    ∃ dm1 w1, InitContainerMonitor env dm w = (Except.ok (env.monitorOk, dm1), w1) := by
  obtain ⟨abs, e, a1, a2, m1, m2, k, cr, se, sp, sl, td⟩ := env
  cases m1 <;> cases m2 <;> simp [Env.monitorOk]

/-- The process is the main flow followed, when that flow returns, by the exit
of the entry point. -/
theorem process_eq {T : tp} (env : Env) (a s : String) :
    process T env a s =
      (match run T env a s with
       | (Except.ok _, w1) =>
         (Except.error (Stop.exited 0), { w1 with trace := w1.trace ++ [Event.exit 0] })
       | (Except.error e, w1) => (Except.error e, w1)) := by
  simp only [process, entryPoint, run, bind_eq_andThen, Flow.andThen, os.Exit]
  generalize KubeArmor env a s (init T) = r
  rcases r with ⟨_ | _, w⟩ <;> rfl

set_option maxHeartbeats 4000000 in
/-- A run whose three initialisation steps succeed, event by event. -/
theorem run_started {T : tp} (env : Env) (a s dir : String)
    (hAbs : env.Abs = Except.ok dir) (he : env.enforcerOk = true) (ha : env.auditOk = true)
    (hm : env.monitorOk = true) :
    ∃ wg, run T env a s =
      (signalOutcome env.signalEarly env.signalPending env.signalLater env.tasksDone,
        { StopChanClosed := !env.signalEarly && (env.signalPending || env.signalLater)
          WgDaemon := wg
          ActivePidMap := []
          ActivePidMapLock := {}
          trace := startupEvents dir a s
            ++ watcherEvents env.InitK8sClient env.GetContainerRuntime
            ++ signalEvents env.signalEarly env.signalPending env.signalLater
                env.tasksDone }) := by
  obtain ⟨abs, e, a1, a2, m1, m2, k, cr, se, sp, sl, td⟩ := env
  simp only [Env.enforcerOk, Env.auditOk, Env.monitorOk, Bool.and_eq_true, beq_iff_eq] at he ha hm
  obtain ⟨ha1, ha2⟩ := ha
  obtain ⟨hm1, hm2⟩ := hm
  simp only at hAbs
  subst hAbs he ha1 ha2 hm1 hm2
  simp only [startupEvents, watcherEvents, signalEvents, handledEvents, destroyEvents,
    signalOutcome, run]
  simp
  cases k <;> simp
  · cases se <;> simp
    cases sp <;> simp [os.Interrupt]
    · cases sl <;> simp
      cases td <;> simp
    · cases td <;> simp
  · by_cases hc : strings.Contains cr "containerd" = true <;> simp [hc]
    · cases se <;> simp
      cases sp <;> simp [os.Interrupt]
      · cases sl <;> simp
        cases td <;> simp
      · cases td <;> simp
    · by_cases hd : strings.Contains cr "docker" = true <;> simp [hd] <;>
        cases se <;> simp <;>
        cases sp <;> simp [os.Interrupt] <;> cases td <;> simp <;> cases sl <;> simp

/-- A run in which the home directory cannot be resolved. -/
theorem run_abs_error {T : tp} (env : Env) (a s err : String)
    (hAbs : env.Abs = Except.error err) :
    run T env a s =
      (Except.error (Stop.panicked err),
        { StopChanClosed := false, WgDaemon := 0, ActivePidMap := [], ActivePidMapLock := {},
          trace := [Event.call Fn.NewKubeArmorDaemon] }) := by
  obtain ⟨abs, e, a1, a2, m1, m2, k, cr, se, sp, sl, td⟩ := env
  simp only at hAbs
  subst hAbs
  simp [run]

/-- A run in which the construction of the enforcer panics. -/
theorem run_enforcer_fails {T : tp} (env : Env) (a s dir : String)
    (hAbs : env.Abs = Except.ok dir) (he : env.NewRuntimeEnforcer = Ret.panics) :
    run T env a s =
      (Except.ok (),
        { StopChanClosed := false, WgDaemon := 0, ActivePidMap := [], ActivePidMapLock := {},
          trace :=
            [ Event.call Fn.NewKubeArmorDaemon,
              Event.log LogFn.Print "Started KubeArmor",
              Event.call Fn.InitRuntimeEnforcer,
              Event.ext (Ext.NewRuntimeEnforcer dir),
              Event.log LogFn.Err "Failed to intialize the runtime enforcer" ] }) := by
  obtain ⟨abs, e, a1, a2, m1, m2, k, cr, se, sp, sl, td⟩ := env
  simp only at hAbs he
  subst hAbs he
  simp [run]

/-- A run in which the construction of the audit logger panics. -/
theorem run_audit_new_fails {T : tp} (env : Env) (a s dir : String)
    (hAbs : env.Abs = Except.ok dir) (he : env.NewRuntimeEnforcer = Ret.ok)
    (ha : env.NewAuditLogger = Ret.panics) :
    run T env a s =
      (Except.ok (),
        { StopChanClosed := false, WgDaemon := 0, ActivePidMap := [], ActivePidMapLock := {},
          trace :=
            [ Event.call Fn.NewKubeArmorDaemon,
              Event.log LogFn.Print "Started KubeArmor",
              Event.call Fn.InitRuntimeEnforcer,
              Event.ext (Ext.NewRuntimeEnforcer dir),
              Event.log LogFn.Print "Started to protect containers",
              Event.call Fn.InitAuditLogger,
              Event.ext (Ext.NewAuditLogger a),
              Event.log LogFn.Err "Failed to intialize the audit logger" ] }) := by
  obtain ⟨abs, e, a1, a2, m1, m2, k, cr, se, sp, sl, td⟩ := env
  simp only at hAbs he ha
  subst hAbs he ha
  simp [run]

/-- A run in which the set-up of the audit logger returns an error or panics. -/
theorem run_audit_init_fails {T : tp} (env : Env) (a s dir : String)
    (hAbs : env.Abs = Except.ok dir) (he : env.NewRuntimeEnforcer = Ret.ok)
    (ha : env.NewAuditLogger = Ret.ok) (hi : env.AuditLoggerInit ≠ RetErr.nil) :
    run T env a s =
      (Except.ok (),
        { StopChanClosed := false, WgDaemon := 0, ActivePidMap := [], ActivePidMapLock := {},
          trace :=
            [ Event.call Fn.NewKubeArmorDaemon,
              Event.log LogFn.Print "Started KubeArmor",
              Event.call Fn.InitRuntimeEnforcer,
              Event.ext (Ext.NewRuntimeEnforcer dir),
              Event.log LogFn.Print "Started to protect containers",
              Event.call Fn.InitAuditLogger,
              Event.ext (Ext.NewAuditLogger a),
              Event.ext (Ext.AuditLoggerInit dir),
              Event.log LogFn.Err "Failed to intialize the audit logger" ] }) := by
  obtain ⟨abs, e, a1, a2, m1, m2, k, cr, se, sp, sl, td⟩ := env
  simp only at hAbs he ha hi
  subst hAbs he ha
  cases a2 <;> simp [run] at hi ⊢

/-- A run in which the construction of the container monitor panics. -/
theorem run_monitor_new_fails {T : tp} (env : Env) (a s dir : String)
    (hAbs : env.Abs = Except.ok dir) (he : env.NewRuntimeEnforcer = Ret.ok)
    (ha : env.auditOk = true) (hm : env.NewContainerMonitor = Ret.panics) :
    run T env a s =
      (Except.ok (),
        { StopChanClosed := false, WgDaemon := 0, ActivePidMap := [], ActivePidMapLock := {},
          trace :=
            [ Event.call Fn.NewKubeArmorDaemon,
              Event.log LogFn.Print "Started KubeArmor",
              Event.call Fn.InitRuntimeEnforcer,
              Event.ext (Ext.NewRuntimeEnforcer dir),
              Event.log LogFn.Print "Started to protect containers",
              Event.call Fn.InitAuditLogger,
              Event.ext (Ext.NewAuditLogger a),
              Event.ext (Ext.AuditLoggerInit dir),
              Event.log LogFn.Print "Started to monitor audit logs",
              Event.call Fn.InitContainerMonitor,
              Event.ext (Ext.NewContainerMonitor s),
              Event.log LogFn.Err "Failed to initialize the container monitor" ] }) := by
  obtain ⟨abs, e, a1, a2, m1, m2, k, cr, se, sp, sl, td⟩ := env
  simp only [Env.auditOk, Bool.and_eq_true, beq_iff_eq] at hAbs he ha hm
  obtain ⟨ha1, ha2⟩ := ha
  subst hAbs he ha1 ha2 hm
  simp [run]

/-- A run in which loading the probe returns an error or panics. -/
theorem run_monitor_init_fails {T : tp} (env : Env) (a s dir : String)
    (hAbs : env.Abs = Except.ok dir) (he : env.NewRuntimeEnforcer = Ret.ok)
    (ha : env.auditOk = true) (hm : env.NewContainerMonitor = Ret.ok)
    (hi : env.InitBPF ≠ RetErr.nil) :
    run T env a s =
      (Except.ok (),
        { StopChanClosed := false, WgDaemon := 0, ActivePidMap := [], ActivePidMapLock := {},
          trace :=
            [ Event.call Fn.NewKubeArmorDaemon,
              Event.log LogFn.Print "Started KubeArmor",
              Event.call Fn.InitRuntimeEnforcer,
              Event.ext (Ext.NewRuntimeEnforcer dir),
              Event.log LogFn.Print "Started to protect containers",
              Event.call Fn.InitAuditLogger,
              Event.ext (Ext.NewAuditLogger a),
              Event.ext (Ext.AuditLoggerInit dir),
              Event.log LogFn.Print "Started to monitor audit logs",
              Event.call Fn.InitContainerMonitor,
              Event.ext (Ext.NewContainerMonitor s),
              Event.ext (Ext.InitBPF dir),
              Event.log LogFn.Err "Failed to initialize the container monitor" ] }) := by
  obtain ⟨abs, e, a1, a2, m1, m2, k, cr, se, sp, sl, td⟩ := env
  simp only [Env.auditOk, Bool.and_eq_true, beq_iff_eq] at hAbs he ha hm hi
  obtain ⟨ha1, ha2⟩ := ha
  subst hAbs he ha1 ha2 hm
  cases m2 <;> simp [run] at hi ⊢

/-! ## Startup -/

/-- C1: when the daemon object is constructed, the three initialisation steps
are entered in the order Enforcer, Audit Logger, Event Monitor, up to and
including the first that fails.  After a failure the function returns, and
the run holds no further call (so no later step and no close), no launch, no
tracker registration and no close of `StopChan`; its last event is the error
log.  If the Enforcer step fails, the other two steps are entered zero times. -/
theorem KubeArmor_init_order_and_abort {T : tp} (env : Env) (a s dir : String)
    (hAbs : env.Abs = Except.ok dir) :
    initCalls (run T env a s).2.trace =
        (if env.enforcerOk then
          (if env.auditOk then
            [Fn.InitRuntimeEnforcer, Fn.InitAuditLogger, Fn.InitContainerMonitor]
           else [Fn.InitRuntimeEnforcer, Fn.InitAuditLogger])
         else [Fn.InitRuntimeEnforcer])
      ∧ ((env.enforcerOk && env.auditOk && env.monitorOk) = false →
          (run T env a s).1 = Except.ok ()
            ∧ calls (run T env a s).2.trace
                = Fn.NewKubeArmorDaemon :: initCalls (run T env a s).2.trace
            ∧ launched (run T env a s).2.trace = []
            ∧ registrations (run T env a s).2.trace = []
            ∧ closes (run T env a s).2.trace = []
            ∧ (run T env a s).2.StopChanClosed = false
            ∧ ∃ msg, (run T env a s).2.trace.getLast? = some (Event.log LogFn.Err msg))
      ∧ (env.enforcerOk = false →
          (calls (run T env a s).2.trace).count Fn.InitAuditLogger = 0
            ∧ (calls (run T env a s).2.trace).count Fn.InitContainerMonitor = 0) := by
  cases he : env.NewRuntimeEnforcer with
  | panics =>
    rw [run_enforcer_fails env a s dir hAbs he]
    simp [initCalls, calls, launched, registrations, closes, Fn.isInit, Env.enforcerOk, he]
  | ok =>
    have he1 : env.enforcerOk = true := by simp [Env.enforcerOk, he]
    cases ha1 : env.NewAuditLogger with
    | panics =>
      rw [run_audit_new_fails env a s dir hAbs he ha1]
      simp [initCalls, calls, launched, registrations, closes, Fn.isInit, Env.enforcerOk,
        Env.auditOk, he, ha1]
    | ok =>
      by_cases ha2 : env.AuditLoggerInit = RetErr.nil
      · have ha : env.auditOk = true := by simp [Env.auditOk, ha1, ha2]
        cases hm1 : env.NewContainerMonitor with
        | panics =>
          rw [run_monitor_new_fails env a s dir hAbs he ha hm1]
          simp [initCalls, calls, launched, registrations, closes, Fn.isInit, he1, ha,
            Env.monitorOk, hm1]
        | ok =>
          by_cases hm2 : env.InitBPF = RetErr.nil
          · have hm : env.monitorOk = true := by simp [Env.monitorOk, hm1, hm2]
            obtain ⟨wg, h⟩ := run_started env a s dir hAbs he1 ha hm
            rw [h]
            simp only [he1, ha, hm, initCalls, calls_append, calls_startupEvents,
              calls_watcherEvents, calls_signalEvents]
            cases env.signalEarly <;> cases env.signalPending <;> cases env.signalLater <;>
              simp [Fn.isInit]
          · rw [run_monitor_init_fails env a s dir hAbs he ha hm1 hm2]
            simp [initCalls, calls, launched, registrations, closes, Fn.isInit, he1, ha,
              Env.monitorOk, hm1, hm2]
      · rw [run_audit_init_fails env a s dir hAbs he ha1 ha2]
        simp [initCalls, calls, launched, registrations, closes, Fn.isInit, Env.enforcerOk,
          Env.auditOk, he, ha1, ha2]

/-- C1, at an input: the construction of the enforcer panics, so only the
Enforcer step is entered and the run returns after the error log. -/
theorem KubeArmor_init_order_and_abort_witness :
    envEnforcerFails.Abs = Except.ok "/opt/kubearmor"
      ∧ (initCalls (run tpUnit envEnforcerFails "file" "stdout").2.trace =
            (if envEnforcerFails.enforcerOk then
              (if envEnforcerFails.auditOk then
                [Fn.InitRuntimeEnforcer, Fn.InitAuditLogger, Fn.InitContainerMonitor]
               else [Fn.InitRuntimeEnforcer, Fn.InitAuditLogger])
             else [Fn.InitRuntimeEnforcer])
          ∧ ((envEnforcerFails.enforcerOk && envEnforcerFails.auditOk
                && envEnforcerFails.monitorOk) = false →
              (run tpUnit envEnforcerFails "file" "stdout").1 = Except.ok ()
                ∧ calls (run tpUnit envEnforcerFails "file" "stdout").2.trace
                    = Fn.NewKubeArmorDaemon ::
                        initCalls (run tpUnit envEnforcerFails "file" "stdout").2.trace
                ∧ launched (run tpUnit envEnforcerFails "file" "stdout").2.trace = []
                ∧ registrations (run tpUnit envEnforcerFails "file" "stdout").2.trace = []
                ∧ closes (run tpUnit envEnforcerFails "file" "stdout").2.trace = []
                ∧ (run tpUnit envEnforcerFails "file" "stdout").2.StopChanClosed = false
                ∧ ∃ msg, (run tpUnit envEnforcerFails "file" "stdout").2.trace.getLast?
                    = some (Event.log LogFn.Err msg))
          ∧ (envEnforcerFails.enforcerOk = false →
              (calls (run tpUnit envEnforcerFails "file" "stdout").2.trace).count
                  Fn.InitAuditLogger = 0
                ∧ (calls (run tpUnit envEnforcerFails "file" "stdout").2.trace).count
                  Fn.InitContainerMonitor = 0)) :=
  ⟨rfl, KubeArmor_init_order_and_abort envEnforcerFails "file" "stdout" "/opt/kubearmor" rfl⟩

/-- C6: when the three steps succeed and the orchestration client does not
connect, the routines launched are exactly the two subsystem routines (no
runtime watcher, no pod watcher, no policy watcher), and `GetChan` is
called. -/
theorem no_client_no_watchers {T : tp} (env : Env) (a s dir : String)
    (hAbs : env.Abs = Except.ok dir) (he : env.enforcerOk = true) (ha : env.auditOk = true)
    (hm : env.monitorOk = true) (hk : env.InitK8sClient = false) :
    launched (run T env a s).2.trace = [Fn.MonitorAuditLogs, Fn.MonitorSystemEvents]
      ∧ Fn.MonitorContainerdEvents ∉ launched (run T env a s).2.trace
      ∧ Fn.MonitorDockerEvents ∉ launched (run T env a s).2.trace
      ∧ Fn.WatchK8sPods ∉ launched (run T env a s).2.trace
      ∧ Fn.WatchSecurityPolicies ∉ launched (run T env a s).2.trace
      ∧ (calls (run T env a s).2.trace).count Fn.GetChan = 1 := by
  obtain ⟨wg, h⟩ := run_started env a s dir hAbs he ha hm
  rw [h]
  simp only [launched_append, launched_startupEvents, launched_watcherEvents,
    launched_signalEvents, calls_append, calls_startupEvents, calls_watcherEvents,
    calls_signalEvents, hk]
  cases env.signalEarly <;> cases env.signalPending <;> cases env.signalLater <;> simp

/-- C6, at an input: everything succeeds except the client connection. -/
theorem no_client_no_watchers_witness :
    launched (run tpUnit envNoClient "file" "stdout").2.trace
        = [Fn.MonitorAuditLogs, Fn.MonitorSystemEvents]
      ∧ Fn.MonitorContainerdEvents ∉ launched (run tpUnit envNoClient "file" "stdout").2.trace
      ∧ Fn.MonitorDockerEvents ∉ launched (run tpUnit envNoClient "file" "stdout").2.trace
      ∧ Fn.WatchK8sPods ∉ launched (run tpUnit envNoClient "file" "stdout").2.trace
      ∧ Fn.WatchSecurityPolicies ∉ launched (run tpUnit envNoClient "file" "stdout").2.trace
      ∧ (calls (run tpUnit envNoClient "file" "stdout").2.trace).count Fn.GetChan = 1 :=
  no_client_no_watchers envNoClient "file" "stdout" "/opt/kubearmor" rfl rfl rfl rfl rfl

/-! ## Runtime selection -/

/-- C3: with the client connected, at most one of the containerd and docker
watchers is launched, never both, and neither is launched exactly when the
runtime identity contains neither `containerd` nor `docker`. -/
theorem runtime_watcher_exclusive {T : tp} (env : Env) (a s dir : String)
    (hAbs : env.Abs = Except.ok dir) (he : env.enforcerOk = true) (ha : env.auditOk = true)
    (hm : env.monitorOk = true) (hk : env.InitK8sClient = true) :
    (launched (run T env a s).2.trace).count Fn.MonitorContainerdEvents
        + (launched (run T env a s).2.trace).count Fn.MonitorDockerEvents ≤ 1
      ∧ ¬ (Fn.MonitorContainerdEvents ∈ launched (run T env a s).2.trace
            ∧ Fn.MonitorDockerEvents ∈ launched (run T env a s).2.trace)
      ∧ ((Fn.MonitorContainerdEvents ∉ launched (run T env a s).2.trace
            ∧ Fn.MonitorDockerEvents ∉ launched (run T env a s).2.trace)
          ↔ (strings.Contains env.GetContainerRuntime "containerd" = false
              ∧ strings.Contains env.GetContainerRuntime "docker" = false)) := by
  obtain ⟨wg, h⟩ := run_started env a s dir hAbs he ha hm
  rw [h]
  simp only [launched_append, launched_startupEvents, launched_watcherEvents,
    launched_signalEvents, hk]
  by_cases hc : strings.Contains env.GetContainerRuntime "containerd" = true <;>
    by_cases hd : strings.Contains env.GetContainerRuntime "docker" = true <;>
    simp [hc, hd]

/-- C3, at an input: a docker runtime. -/
theorem runtime_watcher_exclusive_witness :
    (launched (run tpUnit envDocker "file" "stdout").2.trace).count Fn.MonitorContainerdEvents
        + (launched (run tpUnit envDocker "file" "stdout").2.trace).count
            Fn.MonitorDockerEvents ≤ 1
      ∧ ¬ (Fn.MonitorContainerdEvents ∈ launched (run tpUnit envDocker "file" "stdout").2.trace
            ∧ Fn.MonitorDockerEvents ∈ launched (run tpUnit envDocker "file" "stdout").2.trace)
      ∧ ((Fn.MonitorContainerdEvents ∉ launched (run tpUnit envDocker "file" "stdout").2.trace
            ∧ Fn.MonitorDockerEvents ∉ launched (run tpUnit envDocker "file" "stdout").2.trace)
          ↔ (strings.Contains envDocker.GetContainerRuntime "containerd" = false
              ∧ strings.Contains envDocker.GetContainerRuntime "docker" = false)) :=
  runtime_watcher_exclusive envDocker "file" "stdout" "/opt/kubearmor" rfl rfl rfl rfl rfl

/-- C2, refuted as stated: the identity `docker-containerd` contains `docker`,
yet the containerd watcher is launched and the docker watcher is not. -/
theorem docker_string_starts_containerd_watcher :
    strings.Contains envBoth.GetContainerRuntime "docker" = true
      ∧ envBoth.InitK8sClient = true
      ∧ launched (run tpUnit envBoth "file" "stdout").2.trace =
          [Fn.MonitorAuditLogs, Fn.MonitorSystemEvents, Fn.MonitorContainerdEvents,
            Fn.WatchK8sPods, Fn.WatchSecurityPolicies] := by
  decide

/-- C2, amended: with the client connected, a runtime identity that contains
`docker` and does not contain `containerd` launches the docker watcher exactly
once and never the containerd watcher. -/
theorem docker_watcher_when_docker_only {T : tp} (env : Env) (a s dir : String)
    (hAbs : env.Abs = Except.ok dir) (he : env.enforcerOk = true) (ha : env.auditOk = true)
    (hm : env.monitorOk = true) (hk : env.InitK8sClient = true)
    (hd : strings.Contains env.GetContainerRuntime "docker" = true)
    (hc : strings.Contains env.GetContainerRuntime "containerd" = false) :
    (launched (run T env a s).2.trace).count Fn.MonitorDockerEvents = 1
      ∧ (launched (run T env a s).2.trace).count Fn.MonitorContainerdEvents = 0 := by
  obtain ⟨wg, h⟩ := run_started env a s dir hAbs he ha hm
  rw [h]
  simp [launched_append, launched_startupEvents, launched_watcherEvents,
    launched_signalEvents, hk, hd, hc]

/-- C2, amended, at an input: the identity `docker://19.3.8`. -/
theorem docker_watcher_when_docker_only_witness :
    (launched (run tpUnit envDocker "file" "stdout").2.trace).count Fn.MonitorDockerEvents = 1
      ∧ (launched (run tpUnit envDocker "file" "stdout").2.trace).count
          Fn.MonitorContainerdEvents = 0 :=
  docker_watcher_when_docker_only envDocker "file" "stdout" "/opt/kubearmor"
    rfl rfl rfl rfl rfl (by decide) (by decide)

/-! ## Shutdown -/

/-- C5, refuted as stated: nothing guards `close(StopChan)`.  After a run that
returned, `StopChan` is closed, and a further run of `KubeArmor` in the same
process reaches its close statement and panics there. -/
theorem second_close_panics :
    (run tpUnit envDocker "file" "stdout").1 = Except.ok ()
      ∧ (run tpUnit envDocker "file" "stdout").2.StopChanClosed = true
      ∧ (KubeArmor envDocker "file" "stdout" (run tpUnit envDocker "file" "stdout").2).1 =
          Except.error (Stop.panicked "close of closed channel") :=
  ⟨rfl, rfl, rfl⟩

/-- C5, amended: in every run from the initial state `StopChan` is closed at
most once, and the two close statements never both execute.  This rests on
control flow alone: when the close in `GetChan` executes, the flow never
leaves `GetChan` (it exits the process, or blocks in the tracker wait). -/
theorem StopChan_closed_at_most_once {T : tp} (env : Env) (a s : String) :
    (closes (run T env a s).2.trace).length ≤ 1
      ∧ ¬ (Site.inGetChan ∈ closes (run T env a s).2.trace
            ∧ Site.inKubeArmor ∈ closes (run T env a s).2.trace)
      ∧ (Site.inGetChan ∈ closes (run T env a s).2.trace →
          (run T env a s).1 = Except.error (Stop.exited 0)
            ∨ (run T env a s).1 = Except.error Stop.blocked)
      ∧ (∀ msg, (run T env a s).1 = Except.error (Stop.panicked msg) →
          env.Abs = Except.error msg) := by
  cases hAbs : env.Abs with
  | error err =>
    rw [run_abs_error env a s err hAbs]
    simp [closes]
  | ok dir =>
    cases he : env.NewRuntimeEnforcer with
    | panics =>
      rw [run_enforcer_fails env a s dir hAbs he]
      simp [closes]
    | ok =>
      have he1 : env.enforcerOk = true := by simp [Env.enforcerOk, he]
      cases ha1 : env.NewAuditLogger with
      | panics =>
        rw [run_audit_new_fails env a s dir hAbs he ha1]
        simp [closes]
      | ok =>
        by_cases ha2 : env.AuditLoggerInit = RetErr.nil
        · have ha : env.auditOk = true := by simp [Env.auditOk, ha1, ha2]
          cases hm1 : env.NewContainerMonitor with
          | panics =>
            rw [run_monitor_new_fails env a s dir hAbs he ha hm1]
            simp [closes]
          | ok =>
            by_cases hm2 : env.InitBPF = RetErr.nil
            · have hm : env.monitorOk = true := by simp [Env.monitorOk, hm1, hm2]
              obtain ⟨wg, h⟩ := run_started env a s dir hAbs he1 ha hm
              rw [h]
              simp only [closes_append, closes_startupEvents, closes_watcherEvents,
                closes_signalEvents]
              cases env.signalEarly <;> cases env.signalPending <;> cases env.signalLater <;>
                cases env.tasksDone <;> simp [signalOutcome]
            · rw [run_monitor_init_fails env a s dir hAbs he ha hm1 hm2]
              simp [closes]
        · rw [run_audit_init_fails env a s dir hAbs he ha1 ha2]
          simp [closes]

/-- C5, amended, at an input: the signal is already pending in `GetChan`, whose
close executes; the run ends in the process exit. -/
theorem StopChan_closed_at_most_once_witness :
    Site.inGetChan ∈ closes (run tpUnit envPending "file" "stdout").2.trace
      ∧ ((closes (run tpUnit envPending "file" "stdout").2.trace).length ≤ 1
          ∧ ¬ (Site.inGetChan ∈ closes (run tpUnit envPending "file" "stdout").2.trace
                ∧ Site.inKubeArmor ∈ closes (run tpUnit envPending "file" "stdout").2.trace)
          ∧ (Site.inGetChan ∈ closes (run tpUnit envPending "file" "stdout").2.trace →
              (run tpUnit envPending "file" "stdout").1 = Except.error (Stop.exited 0)
                ∨ (run tpUnit envPending "file" "stdout").1 = Except.error Stop.blocked)
          ∧ (∀ msg, (run tpUnit envPending "file" "stdout").1 = Except.error (Stop.panicked msg) →
              envPending.Abs = Except.error msg)) :=
  ⟨by decide, StopChan_closed_at_most_once envPending "file" "stdout"⟩

/-! ## Signals -/

/-- C7, refuted as stated: the forcible-kill signal is among the signals that
`GetOSSigChannel` registers. -/
theorem SIGKILL_registered :
    ∃ c, (GetOSSigChannel (init tpUnit)).1 = Except.ok c ∧ syscall.Signal.SIGKILL ∈ c.notify :=
  ⟨{ capacity := 1
     notify := [syscall.Signal.SIGKILL, syscall.Signal.SIGHUP, syscall.Signal.SIGINT,
       syscall.Signal.SIGTERM, syscall.Signal.SIGQUIT, syscall.Signal.SIGINT] },
    rfl, by decide⟩

/-- C7, amended: the signals `GetOSSigChannel` registers are exactly interrupt,
hangup, terminate, quit and the forcible-kill signal. -/
theorem GetOSSigChannel_signals {T : tp} (w : World T) :
    ∃ c, (GetOSSigChannel w).1 = Except.ok c
      ∧ c.capacity = 1
      ∧ ∀ sig, sig ∈ c.notify ↔
          (sig = syscall.Signal.SIGINT ∨ sig = syscall.Signal.SIGHUP
            ∨ sig = syscall.Signal.SIGTERM ∨ sig = syscall.Signal.SIGQUIT
            ∨ sig = syscall.Signal.SIGKILL) := by
  refine ⟨{ capacity := 1
            notify := [syscall.Signal.SIGKILL, syscall.Signal.SIGHUP, syscall.Signal.SIGINT,
              syscall.Signal.SIGTERM, syscall.Signal.SIGQUIT, syscall.Signal.SIGINT] },
    rfl, rfl, ?_⟩
  intro sig
  simp only [List.mem_cons, List.mem_singleton, List.not_mem_nil, or_false]
  tauto

/-! ## Task tracker -/

/-- C8, at the failing input: in a full startup with a docker runtime every
launch comes before the registration that belongs to it, and the pod and
policy watchers are launched without any registration, so five routines are
launched and three are registered.  A routine that gets to run before its
registration drives the tracker counter below zero. -/
theorem launch_precedes_registration :
    launchSteps (run tpUnit envDocker "file" "stdout").2.trace =
        [ Event.go Fn.MonitorAuditLogs, Event.wgAdd 1,
          Event.go Fn.MonitorSystemEvents, Event.wgAdd 1,
          Event.go Fn.MonitorDockerEvents, Event.wgAdd 1,
          Event.go Fn.WatchK8sPods,
          Event.go Fn.WatchSecurityPolicies ]
      ∧ (launched (run tpUnit envDocker "file" "stdout").2.trace).length = 5
      ∧ (registrations (run tpUnit envDocker "file" "stdout").2.trace).length = 3
      ∧ (MonitorAuditLogs (init tpUnit)).2.WgDaemon = -1 := by
  decide

/-- C9, at the failing input: with the two subsystem routines registered, each
routine only launches its loops and calls `Done` at once.  The counter is back
at zero and the tracker wait returns although no loop has ended (in `envStuck`
nothing else makes progress). -/
theorem routines_done_before_loops_end :
    (routinesThenWait envStuck { init tpUnit with WgDaemon := 2 }).1 = Except.ok ()
      ∧ (routinesThenWait envStuck { init tpUnit with WgDaemon := 2 }).2.trace =
          [ Event.go Fn.AuditLoggerMonitorAuditLogs, Event.wgAdd (-1),
            Event.go Fn.TraceSyscall, Event.go Fn.TraceSkb, Event.go Fn.UpdateSystemLogs,
            Event.wgAdd (-1),
            Event.wgWait, Event.wgWaitReturn ]
      ∧ (routinesThenWait envStuck { init tpUnit with WgDaemon := 2 }).2.WgDaemon = 0 :=
  ⟨rfl, by decide, by decide⟩

/-! ## Construction -/

/-- C10, refuted as stated: when the directory of the executable cannot be
resolved, `NewKubeArmorDaemon` panics and returns no daemon. -/
theorem NewKubeArmorDaemon_panics :
    (NewKubeArmorDaemon envNoHome "file" "stdout" (init tpUnit)).1 =
      Except.error (Stop.panicked "getwd: no such file or directory") := by
  rfl

/-- C10, amended: when the directory of the executable resolves to `dir`,
`NewKubeArmorDaemon` returns a daemon whose four collections are empty, whose
locks are unlocked, whose three subsystem handles are unset, whose home
directory is `dir`, and whose two log options are the arguments, unchanged and
in that order. -/
theorem NewKubeArmorDaemon_fields {T : tp} (env : Env) (auditLogOption systemLogOption dir : String)
    (w : World T) (hAbs : env.Abs = Except.ok dir) :
    ∃ dm, (NewKubeArmorDaemon env auditLogOption systemLogOption w).1 = Except.ok dm
      ∧ dm.Containers = [] ∧ dm.ContainerGroups = [] ∧ dm.K8sPods = []
      ∧ dm.SecurityPolicies = []
      ∧ dm.ContainersLock.locked = false ∧ dm.ContainerGroupsLock.locked = false
      ∧ dm.K8sPodsLock.locked = false ∧ dm.SecurityPoliciesLock.locked = false
      ∧ dm.RuntimeEnforcer = none ∧ dm.AuditLogger = none ∧ dm.ContainerMonitor = none
      ∧ dm.HomeDir = dir
      ∧ dm.AuditLogOption = auditLogOption ∧ dm.SystemLogOption = systemLogOption := by
  simp [hAbs]

/-- C10, amended, at an input. -/
theorem NewKubeArmorDaemon_fields_witness :
    ∃ dm, (NewKubeArmorDaemon envDocker "file" "stdout" (init tpUnit)).1 = Except.ok dm
      ∧ dm.Containers = [] ∧ dm.ContainerGroups = [] ∧ dm.K8sPods = []
      ∧ dm.SecurityPolicies = []
      ∧ dm.ContainersLock.locked = false ∧ dm.ContainerGroupsLock.locked = false
      ∧ dm.K8sPodsLock.locked = false ∧ dm.SecurityPoliciesLock.locked = false
      ∧ dm.RuntimeEnforcer = none ∧ dm.AuditLogger = none ∧ dm.ContainerMonitor = none
      ∧ dm.HomeDir = "/opt/kubearmor"
      ∧ dm.AuditLogOption = "file" ∧ dm.SystemLogOption = "stdout" :=
  NewKubeArmorDaemon_fields envDocker "file" "stdout" "/opt/kubearmor" (init tpUnit) rfl

end core
